import Mathlib

/-!
Verification of the canvas zoom/pan/annotation viewer replicated across the
Vision pages (VisionFood, VisionFlower, FlowerDetection, Food) of the
repository.  JavaScript numbers are modelled as exact rationals (ℚ): every
arithmetic operation the viewer performs (+, -, *, /, max, min, comparison)
is embedded exactly, and `Math.hypot` distances are represented by their
squares (hypot is strictly monotone on nonnegative inputs, so every
comparison the code makes on distances agrees with the same comparison on
squared distances).  Where a property is specifically about the bit-level
exactness of JavaScript's IEEE-754 binary64 arithmetic (the pan round-trip),
the `+` of the pan update is additionally modelled with correct rounding:
`roundF64` below is round-to-nearest, ties-to-even at 53 significant bits
(subnormal below 2^-1022), which is exactly what binary64 addition performs
on the in-range values involved.
-/

namespace ChatNew

/-- Viewport state of one canvas: `{ scale, dx, dy }` as created by
`useState({ scale: 1, dx: 0, dy: 0 })` on each Vision page. -/
structure ViewportState where
  scale : ℚ
  dx : ℚ
  dy : ℚ
  deriving DecidableEq, Repr

/-- The initial / reset viewport state `{ scale: 1, dx: 0, dy: 0 }`. -/
def resetView : ViewportState := ⟨1, 0, 0⟩

/-- `clampScale = (s) => Math.max(0.2, Math.min(5, s))` (identical in all
page variants, named `clampScale` or `clamp` in the source). -/
def clampScale (s : ℚ) : ℚ := max 0.2 (min 5 s)

/-- `zoomAt(x, y, factor)` as implemented in each Vision page:
`newScale = clampScale(v.scale * factor); ratio = newScale / v.scale;
dx' = x - (x - v.dx) * ratio; dy' = y - (y - v.dy) * ratio`. -/
def zoomAt (v : ViewportState) (x y factor : ℚ) : ViewportState :=
  let newScale := clampScale (v.scale * factor)
  let ratio := newScale / v.scale
  { scale := newScale, dx := x - (x - v.dx) * ratio, dy := y - (y - v.dy) * ratio }

/-- The pan update `setView(v => ({ ...v, dx: v.dx + dx, dy: v.dy + dy }))`
shared by mouse drag (`onMouseMove`) and one-finger touch move. -/
def panBy (v : ViewportState) (deltaX deltaY : ℚ) : ViewportState :=
  { v with dx := v.dx + deltaX, dy := v.dy + deltaY }

/-- The image point shown at canvas point `(x, y)`: the canvas transform is
`translate(dx, dy); scale(scale)`, so the image x-coordinate under canvas
x-coordinate `x` is `(x - dx) / scale` (and symmetrically for y). -/
def imagePointX (v : ViewportState) (x : ℚ) : ℚ := (x - v.dx) / v.scale

def imagePointY (v : ViewportState) (y : ℚ) : ℚ := (y - v.dy) / v.scale

theorem clampScale_mem (s : ℚ) : 0.2 ≤ clampScale s ∧ clampScale s ≤ 5 := by
  unfold clampScale
  constructor
  · exact le_max_left _ _
  · exact max_le (by norm_num) (min_le_left _ _)

theorem clampScale_pos (s : ℚ) : 0 < clampScale s :=
  lt_of_lt_of_le (by norm_num) (clampScale_mem s).1

theorem clampScale_eq_self {s : ℚ} (h1 : 0.2 ≤ s) (h2 : s ≤ 5) : clampScale s = s := by
  unfold clampScale
  rw [min_eq_right h2, max_eq_right h1]

end ChatNew

open ChatNew

/-- C1: for every viewport state with positive scale, every canvas point
`(x, y)` and every factor `> 0`, `zoomAt x y factor` produces exactly the
state with `scale' = clamp(scale*factor, 0.2, 5)`,
`dx' = x - (x - dx) * ratio`, `dy' = y - (y - dy) * ratio` where
`ratio = scale' / scale`, and the image point under `(x, y)` is unchanged;
`zoomAt` is a total pure function of the current state. -/
theorem zoomAt_spec (v : ViewportState) (x y factor : ℚ)
    (hs : 0 < v.scale) (hf : 0 < factor) :
    (zoomAt v x y factor).scale = clampScale (v.scale * factor) ∧
    (zoomAt v x y factor).dx =
      x - (x - v.dx) * (clampScale (v.scale * factor) / v.scale) ∧
    (zoomAt v x y factor).dy =
      y - (y - v.dy) * (clampScale (v.scale * factor) / v.scale) ∧
    imagePointX (zoomAt v x y factor) x = imagePointX v x ∧
    imagePointY (zoomAt v x y factor) y = imagePointY v y := by
  refine ⟨rfl, rfl, rfl, ?_, ?_⟩
  · unfold imagePointX zoomAt
    have hns : clampScale (v.scale * factor) ≠ 0 := ne_of_gt (clampScale_pos _)
    field_simp
    ring
  · unfold imagePointY zoomAt
    have hns : clampScale (v.scale * factor) ≠ 0 := ne_of_gt (clampScale_pos _)
    field_simp
    ring

/-- Witness for C1 at the concrete state `{scale:1, dx:0, dy:0}`, canvas
point `(10, 20)` and factor `2`. -/
theorem zoomAt_spec_witness :
    (zoomAt ⟨1, 0, 0⟩ 10 20 2).scale = clampScale (1 * 2) ∧
    (zoomAt ⟨1, 0, 0⟩ 10 20 2).dx = 10 - (10 - 0) * (clampScale (1 * 2) / 1) ∧
    (zoomAt ⟨1, 0, 0⟩ 10 20 2).dy = 20 - (20 - 0) * (clampScale (1 * 2) / 1) ∧
    imagePointX (zoomAt ⟨1, 0, 0⟩ 10 20 2) 10 = imagePointX ⟨1, 0, 0⟩ 10 ∧
    imagePointY (zoomAt ⟨1, 0, 0⟩ 10 20 2) 20 = imagePointY ⟨1, 0, 0⟩ 20 :=
  zoomAt_spec ⟨1, 0, 0⟩ 10 20 2 (by norm_num) (by norm_num)

namespace ChatNew

/-- One user interaction step on a canvas's viewport state, as wired in the
Vision pages: `zoomAt` (wheel / HUD buttons, any positive factor),
mouse-drag pan (`onMouseMove`, arbitrary delta), two-finger pinch
(`onTouchMove`, fixed factor 1.03 or 0.97 applied through `zoomAt`), and
the reset to `{scale:1, dx:0, dy:0}` performed by `onFile`. -/
inductive ViewStep : ViewportState → ViewportState → Prop
  | zoom (v : ViewportState) (x y factor : ℚ) : ViewStep v (zoomAt v x y factor)
  | pan (v : ViewportState) (deltaX deltaY : ℚ) : ViewStep v (panBy v deltaX deltaY)
  | pinchIn (v : ViewportState) (cx cy : ℚ) : ViewStep v (zoomAt v cx cy 1.03)
  | pinchOut (v : ViewportState) (cx cy : ℚ) : ViewStep v (zoomAt v cx cy 0.97)
  | reset (v : ViewportState) : ViewStep v resetView

/-- Viewport states reachable from the initial `{scale:1, dx:0, dy:0}` by
any sequence of interaction steps. -/
inductive ReachableView : ViewportState → Prop
  | init : ReachableView resetView
  | step {v w : ViewportState} : ReachableView v → ViewStep v w → ReachableView w

theorem reachable_scale_bounds {v : ViewportState} (h : ReachableView v) :
    0.2 ≤ v.scale ∧ v.scale ≤ 5 := by
  induction h with
  | init => exact ⟨by norm_num [resetView], by norm_num [resetView]⟩
  | step _ s ih =>
    cases s with
    | zoom x y factor => exact clampScale_mem _
    | pan dX dY => exact ih
    | pinchIn cx cy => exact clampScale_mem _
    | pinchOut cx cy => exact clampScale_mem _
    | reset => exact ⟨by norm_num [resetView], by norm_num [resetView]⟩

end ChatNew

/-- C2: every viewport state reachable from `{scale:1, dx:0, dy:0}` by any
sequence of zoomAt, pan, pinch and new-file-reset steps has its scale in
`[0.2, 5.0]`, no matter how many zoom-in/zoom-out calls occur; the pan
offsets are unconstrained: every offset pair `(a, b)` is realized by some
reachable state (no bounds-checking against image edges). -/
theorem reachable_view_invariant (v : ViewportState) (h : ReachableView v) :
    (0.2 ≤ v.scale ∧ v.scale ≤ 5) ∧
    ∀ a b : ℚ, ∃ w : ViewportState, ReachableView w ∧ w.dx = a ∧ w.dy = b := by
  refine ⟨reachable_scale_bounds h, fun a b => ⟨panBy resetView a b, ?_, ?_, ?_⟩⟩
  · exact ReachableView.step ReachableView.init (ViewStep.pan resetView a b)
  · simp [panBy, resetView]
  · simp [panBy, resetView]

/-- Witness for C2 at the initial state. -/
theorem reachable_view_invariant_witness :
    (0.2 ≤ resetView.scale ∧ resetView.scale ≤ 5) ∧
    ∀ a b : ℚ, ∃ w : ViewportState, ReachableView w ∧ w.dx = a ∧ w.dy = b :=
  reachable_view_invariant resetView ReachableView.init

/-- C3 counterexample: from `{scale:1, dx:0, dy:0}` with factor 10 at the
origin, `zoomAt(0,0,10)` clamps the scale to 5 and the subsequent
`zoomAt(0,0,1/10)` yields scale 1/2, not the original 1 — off by a factor
of 2, far outside any floating-point tolerance. -/
theorem zoom_inverse_counterexample :
    (zoomAt (zoomAt ⟨1, 0, 0⟩ 0 0 10) 0 0 (1 / 10)).scale = 1 / 2 ∧
    (1 : ℚ) ≠ 1 / 2 := by
  constructor
  · norm_num [zoomAt, clampScale]
  · norm_num

/-- C3 amended: if neither `zoomAt` call clamps — i.e. both the current
scale and `scale * f` lie in `[0.2, 5]` and `f > 0` — then
`zoomAt(x,y,f)` followed by `zoomAt(x,y,1/f)` restores the original scale
exactly (exact rational arithmetic, so within any tolerance). -/
theorem zoom_inverse_no_clamp (v : ViewportState) (x y f : ℚ)
    (hf : 0 < f) (hlo : 0.2 ≤ v.scale) (hhi : v.scale ≤ 5)
    (hlo2 : 0.2 ≤ v.scale * f) (hhi2 : v.scale * f ≤ 5) :
    (zoomAt (zoomAt v x y f) x y (1 / f)).scale = v.scale := by
  have h1 : (zoomAt v x y f).scale = v.scale * f := clampScale_eq_self hlo2 hhi2
  show clampScale ((zoomAt v x y f).scale * (1 / f)) = v.scale
  rw [h1]
  have hfne : f ≠ 0 := ne_of_gt hf
  have : v.scale * f * (1 / f) = v.scale := by field_simp
  rw [this]
  exact clampScale_eq_self hlo hhi

/-- Witness for the amended C3 at `{scale:1, dx:0, dy:0}`, point `(3, 4)`,
factor 2. -/
theorem zoom_inverse_no_clamp_witness :
    (zoomAt (zoomAt ⟨1, 0, 0⟩ 3 4 2) 3 4 (1 / 2)).scale = (1 : ℚ) := by
  have h := zoom_inverse_no_clamp ⟨1, 0, 0⟩ 3 4 2 (by norm_num) (by norm_num)
    (by norm_num) (by norm_num) (by norm_num)
  simpa using h

namespace ChatNew

/-- A touch sample (`clientX`, `clientY`) from a touch event. -/
structure Touch where
  clientX : ℚ
  clientY : ℚ
  deriving DecidableEq, Repr

/-- The `dragRef` payload `{ dragging, lastX, lastY }`. -/
structure DragState where
  dragging : Bool
  lastX : ℚ
  lastY : ℚ
  deriving DecidableEq, Repr

/-- The `pinchRef` payload `{ lastDist }`.  `Math.hypot` distances are
stored squared (see the file header): every `>` comparison the code makes
between two distances agrees with the comparison of their squares. -/
structure PinchState where
  lastDistSq : ℚ
  deriving DecidableEq, Repr

/-- The state touched by one canvas's input handlers: the viewport plus the
`dragRef` / `pinchRef` refs. -/
structure CanvasInput where
  view : ViewportState
  drag : Option DragState
  pinch : Option PinchState
  deriving DecidableEq, Repr

/-- Squared version of `getDist = (t) => Math.hypot(t[0].clientX - t[1].clientX,
t[0].clientY - t[1].clientY)`. -/
def getDistSq (t1 t2 : Touch) : ℚ :=
  (t1.clientX - t2.clientX) ^ 2 + (t1.clientY - t2.clientY) ^ 2

/-- `onMouseMove` (VisionFood; `handleMouseMove` / `onMove` in the other
pages): while dragging, add the client-coordinate delta to `dx, dy` and
record the new last point; otherwise do nothing. -/
def onMouseMove (s : CanvasInput) (clientX clientY : ℚ) : CanvasInput :=
  match s.drag with
  | some d =>
    if d.dragging then
      { s with
        view := panBy s.view (clientX - d.lastX) (clientY - d.lastY),
        drag := some ⟨true, clientX, clientY⟩ }
    else s
  | none => s

/-- `onTouchMove` (VisionFood; `handleTouchMove` in VisionFlower): with one
touch and an active drag, pan exactly like the mouse handler; with two
touches and an active pinch, compare the current finger distance with the
previous sample, pick the fixed factor 1.03 (grew) or 0.97 (otherwise),
store the new distance, and `zoomAt` the midpoint of the two touches in
canvas coordinates (`rectLeft`/`rectTop` is the canvas bounding rect
origin). -/
def onTouchMove (s : CanvasInput) (touches : List Touch)
    (rectLeft rectTop : ℚ) : CanvasInput :=
  match touches with
  | [t] =>
    match s.drag with
    | some d =>
      if d.dragging then
        { s with
          view := panBy s.view (t.clientX - d.lastX) (t.clientY - d.lastY),
          drag := some ⟨true, t.clientX, t.clientY⟩ }
      else s
    | none => s
  | [t1, t2] =>
    match s.pinch with
    | some p =>
      let newDistSq := getDistSq t1 t2
      let factor : ℚ := if p.lastDistSq < newDistSq then 1.03 else 0.97
      let cx := (t1.clientX + t2.clientX) / 2 - rectLeft
      let cy := (t1.clientY + t2.clientY) / 2 - rectTop
      { s with view := zoomAt s.view cx cy factor, pinch := some ⟨newDistSq⟩ }
    | none => s
  | _ => s

end ChatNew

/-- C4 counterexample: pinch state with previous finger distance 100
(squared: 10000) and new touches `(0,0)`, `(0,200)` — distance 200, so the
distance ratio is 2.  The claim predicts a zoom by factor 2, giving scale
`clampScale(1 * 2) = 2` from the initial viewport; the code instead zooms
by the fixed factor 1.03, giving scale 103/100 ≠ 2. -/
theorem touch_pinch_counterexample :
    (onTouchMove ⟨resetView, none, some ⟨100 ^ 2⟩⟩ [⟨0, 0⟩, ⟨0, 200⟩] 0 0).view.scale
      = 103 / 100 ∧
    clampScale (1 * (200 / 100)) = 2 ∧
    (103 / 100 : ℚ) ≠ 2 := by
  refine ⟨?_, ?_, by norm_num⟩
  · norm_num [onTouchMove, getDistSq, zoomAt, clampScale, resetView]
  · norm_num [clampScale]

/-- C4 amended: on a two-finger touch-move with an active pinch, the
controller zooms at the midpoint of the two touches (in canvas
coordinates) by the FIXED factor 1.03 when the finger distance grew since
the previous sample and 0.97 otherwise — not by the distance ratio — and
records the new distance; a one-finger touch-move with an active drag is
exactly the mouse-drag handler: it adds the movement delta to `dx, dy`. -/
theorem touch_controller_spec (s : CanvasInput) (t t1 t2 : Touch)
    (rectLeft rectTop : ℚ) (d : DragState) (p : PinchState)
    (hd : s.drag = some d) (hdrag : d.dragging = true) (hp : s.pinch = some p) :
    onTouchMove s [t] rectLeft rectTop = onMouseMove s t.clientX t.clientY ∧
    (onTouchMove s [t] rectLeft rectTop).view =
      panBy s.view (t.clientX - d.lastX) (t.clientY - d.lastY) ∧
    (onTouchMove s [t1, t2] rectLeft rectTop).view =
      zoomAt s.view ((t1.clientX + t2.clientX) / 2 - rectLeft)
        ((t1.clientY + t2.clientY) / 2 - rectTop)
        (if p.lastDistSq < getDistSq t1 t2 then 1.03 else 0.97) ∧
    (onTouchMove s [t1, t2] rectLeft rectTop).pinch = some ⟨getDistSq t1 t2⟩ := by
  refine ⟨?_, ?_, ?_, ?_⟩ <;>
    simp [onTouchMove, onMouseMove, hd, hdrag, hp]

/-- Witness for the amended C4 at a concrete dragging/pinching state. -/
theorem touch_controller_spec_witness :
    onTouchMove ⟨resetView, some ⟨true, 1, 2⟩, some ⟨9⟩⟩ [⟨4, 6⟩] 0 0
      = onMouseMove ⟨resetView, some ⟨true, 1, 2⟩, some ⟨9⟩⟩ 4 6 ∧
    (onTouchMove ⟨resetView, some ⟨true, 1, 2⟩, some ⟨9⟩⟩ [⟨4, 6⟩] 0 0).view =
      panBy resetView (4 - 1) (6 - 2) ∧
    (onTouchMove ⟨resetView, some ⟨true, 1, 2⟩, some ⟨9⟩⟩ [⟨0, 0⟩, ⟨6, 8⟩] 0 0).view =
      zoomAt resetView ((0 + 6) / 2 - 0) ((0 + 8) / 2 - 0)
        (if (9 : ℚ) < getDistSq ⟨0, 0⟩ ⟨6, 8⟩ then 1.03 else 0.97) ∧
    (onTouchMove ⟨resetView, some ⟨true, 1, 2⟩, some ⟨9⟩⟩ [⟨0, 0⟩, ⟨6, 8⟩] 0 0).pinch =
      some ⟨getDistSq ⟨0, 0⟩ ⟨6, 8⟩⟩ :=
  touch_controller_spec ⟨resetView, some ⟨true, 1, 2⟩, some ⟨9⟩⟩
    ⟨4, 6⟩ ⟨0, 0⟩ ⟨6, 8⟩ 0 0 ⟨true, 1, 2⟩ ⟨9⟩ rfl rfl rfl

namespace ChatNew

/-- Image dimensions (`{ width, height }` of the backend response's `image`
field, or the natural size of the loaded image). -/
structure ImgSize where
  width : ℚ
  height : ℚ
  deriving DecidableEq, Repr

/-- A detection box `{ label, conf, xyxy }` from the backend response. -/
structure Box where
  label : String
  conf : ℚ
  xyxy : ℚ × ℚ × ℚ × ℚ
  deriving DecidableEq, Repr

/-- JavaScript `a || b` on numbers: `b` when `a` is falsy (0), else `a`. -/
def jsOr (a b : ℚ) : ℚ := if a = 0 then b else a

/-- The box-rectangle computation of `drawOutput` (VisionFlower):
`sx = canvasW / (resp.image?.width || imgNatural.w)` (symmetrically `sy`),
then `rx1 = x1*sx, ry1 = y1*sy, rw = (x2-x1)*sx, rh = (y2-y1)*sy`; the
rectangle `(rx1, ry1, rw, rh)` is passed to `strokeRect`. -/
def boxRect (canvasW canvasH : ℚ) (respImage : ImgSize) (naturalW naturalH : ℚ)
    (b : Box) : ℚ × ℚ × ℚ × ℚ :=
  let sx := canvasW / jsOr respImage.width naturalW
  let sy := canvasH / jsOr respImage.height naturalH
  let (x1, y1, x2, y2) := b.xyxy
  (x1 * sx, y1 * sy, (x2 - x1) * sx, (y2 - y1) * sy)

/-- The canvas-space rectangle actually painted for a box: `strokeRect` runs
under `translate(view.dx, view.dy); scale(view.scale)`, so a context point
`p` lands at canvas point `view.d + view.scale * p`. -/
def renderedRect (view : ViewportState) (canvasW canvasH : ℚ)
    (respImage : ImgSize) (naturalW naturalH : ℚ) (b : Box) : ℚ × ℚ × ℚ × ℚ :=
  let (rx, ry, rw, rh) := boxRect canvasW canvasH respImage naturalW naturalH b
  (view.dx + view.scale * rx, view.dy + view.scale * ry,
   view.scale * rw, view.scale * rh)

end ChatNew

/-- C5: a detection response with one box `xyxy = [0,0,10,10]` on a 100x100
source image, rendered with the default viewport `{scale:1, dx:0, dy:0}`
into a 200x200 canvas, paints the rectangle at canvas coordinates
`[0, 0, 20, 20]`: box coordinates are scaled from backend image space to
canvas space by `canvasSize / imageSize = 2`. -/
theorem draw_output_box_scaling :
    renderedRect resetView 200 200 ⟨100, 100⟩ 100 100 ⟨"flower", 0.9, (0, 0, 10, 10)⟩
      = (0, 0, 20, 20) ∧
    (200 : ℚ) / 100 = 2 := by
  constructor
  · norm_num [renderedRect, boxRect, jsOr, resetView]
  · norm_num

namespace ChatNew

/-- One classification entry `{ label, confidence }`. -/
structure FoodClass where
  label : String
  confidence : ℚ
  deriving DecidableEq, Repr

/-- The food response shape `{ image: {width, height}, classes: [...] }`. -/
structure FoodResponse where
  image : ImgSize
  classes : List FoodClass
  deriving DecidableEq, Repr

/-- JavaScript `a?.w || b` where `a` is a nullable object: `b` when `a` is
null or the field is falsy (0), else the field. -/
def jsOrOpt (a : Option ℚ) (b : ℚ) : ℚ :=
  match a with
  | some x => if x = 0 then b else x
  | none => b

end ChatNew

namespace ChatNew.FoodPage

/-- Component state of the Food Classification pages (VisionFood / Food):
`file`, `imgUrl` (object URLs and files are abstracted to tags),
`imgNatural` (called `imgWH` in the Food variant), the viewport, the
processing flag, the stored response and the elapsed-time value. -/
structure State where
  file : Option ℕ
  imgUrl : Option ℕ
  imgNatural : Option ImgSize
  view : ViewportState
  processing : Bool
  resp : Option FoodResponse
  elapsedMs : Option ℕ
  deriving DecidableEq, Repr

/-- `onFile(f)`: store the file, clear the response and elapsed time, reset
the viewport; on null also clear `imgUrl`/`imgNatural`, otherwise set
`imgUrl` to the object URL of the file (`imgNatural` is set later by the
image `onload` callback). -/
def onFile (s : State) (f : Option ℕ) : State :=
  let s1 : State := { s with file := f, resp := none, elapsedMs := none, view := resetView }
  match f with
  | none => { s1 with imgUrl := none, imgNatural := none }
  | some fv => { s1 with imgUrl := some fv }

/-- Outcome of the `fetch` + `res.json()` pair inside `analyze`: `reject`
when either throws (network failure or non-JSON body); `resolve data` when
a JSON value is parsed — `none` models a value that is null or has no
`classes` array, `some d` a well-shaped response (possibly with an empty
`classes` list). -/
inductive FetchOutcome where
  | reject : FetchOutcome
  | resolve : Option FoodResponse → FetchOutcome
  deriving DecidableEq, Repr

/-- The placeholder response built when the parsed data fails the
`data && Array.isArray(data.classes) && data.classes.length` check:
three fixed demo classes, image size `imgNatural?.w || 640` by
`imgNatural?.h || 480`. -/
def okPlaceholder (s : State) : FoodResponse :=
  { image := ⟨jsOrOpt (s.imgNatural.map ImgSize.width) 640,
              jsOrOpt (s.imgNatural.map ImgSize.height) 480⟩,
    classes := [⟨"Italian Cuisine", 0.95⟩, ⟨"Pasta", 0.88⟩, ⟨"Tomato Sauce", 0.82⟩] }

/-- The placeholder response built in the `catch` branch: one fixed demo
class, same image-size fallback. -/
def catchPlaceholder (s : State) : FoodResponse :=
  { image := ⟨jsOrOpt (s.imgNatural.map ImgSize.width) 640,
              jsOrOpt (s.imgNatural.map ImgSize.height) 480⟩,
    classes := [⟨"Italian Cuisine", 0.95⟩] }

/-- `analyze` of the Food Classification pages: return immediately when no
file is selected; otherwise set `processing`, clear `resp`/`elapsedMs`,
consume the fetch outcome (`safe` check on success, placeholder in
`catch`), and in `finally` record the elapsed time and clear
`processing`.  `elapsed` is the measured `performance.now()` difference. -/
def analyze (s : State) (outcome : FetchOutcome) (elapsed : ℕ) : State :=
  match s.file with
  | none => s
  | some _ =>
    let s1 : State := { s with processing := true, resp := none, elapsedMs := none }
    let s2 : State :=
      match outcome with
      | .resolve data =>
        let safe :=
          match data with
          | some d => if d.classes.isEmpty then okPlaceholder s1 else d
          | none => okPlaceholder s1
        { s1 with resp := some safe }
      | .reject => { s1 with resp := some (catchPlaceholder s1) }
    { s2 with elapsedMs := some elapsed, processing := false }

end ChatNew.FoodPage

namespace ChatNew.FlowerPage

/-- The flower detection response `{ image, boxes }`. -/
structure DetectResponse where
  image : ImgSize
  boxes : List Box
  deriving DecidableEq, Repr

/-- Component state of the FlowerDetection page: like the food pages but
with an inline `error` message, a string `elapsed` display value and two
viewports (input and output canvas). -/
structure State where
  file : Option ℕ
  imgUrl : Option ℕ
  imgWH : Option ImgSize
  inView : ViewportState
  outView : ViewportState
  processing : Bool
  resp : Option DetectResponse
  error : Option String
  elapsed : String
  deriving DecidableEq, Repr

/-- `onFile(f)` of FlowerDetection: store the file, clear response, error
and elapsed display, reset both viewports; on null also clear
`imgUrl`/`imgWH`, otherwise set `imgUrl` to the object URL. -/
def onFile (s : State) (f : Option ℕ) : State :=
  let s1 : State := { s with
    file := f
    resp := none
    error := none
    elapsed := "–"
    inView := resetView
    outView := resetView }
  match f with
  | none => { s1 with imgUrl := none, imgWH := none }
  | some fv => { s1 with imgUrl := some fv }

/-- Outcome of the request inside FlowerDetection's `analyze`: `reject msg`
when `fetch`/`r.json()` throws (`msg` is `e?.message || "Request failed"`);
`httpError status text` when the response arrives with `!r.ok` (the code
throws and catches `HTTP ${status}: ${text}`); `resolve data` on a parsed
success body. -/
inductive FetchOutcome where
  | reject : String → FetchOutcome
  | httpError : ℕ → String → FetchOutcome
  | resolve : DetectResponse → FetchOutcome
  deriving DecidableEq, Repr

/-- `analyze` of FlowerDetection: guard on `file`; set `processing`, clear
`resp` and `error`; store strictly the backend data on success and an
inline error message on any failure (never placeholder data); in
`finally` set the elapsed display and clear `processing`. -/
def analyze (s : State) (outcome : FetchOutcome) (elapsed : ℕ) : State :=
  match s.file with
  | none => s
  | some _ =>
    let s1 : State := { s with processing := true, resp := none, error := none }
    let s2 : State :=
      match outcome with
      | .resolve data => { s1 with resp := some data }
      | .httpError status text =>
          { s1 with error := some ("HTTP " ++ toString status ++ ": " ++ text) }
      | .reject msg => { s1 with error := some msg }
    { s2 with elapsed := toString elapsed ++ " ms", processing := false }

end ChatNew.FlowerPage

open ChatNew.FoodPage in
open ChatNew.FlowerPage in
/-- C6: selecting a new (non-null) file resets the viewport state to
exactly `{scale:1, dx:0, dy:0}` (both viewports on the two-canvas page)
and clears the previous analysis response and elapsed-time value, for
every prior component state. -/
theorem onFile_resets_state (s : FoodPage.State) (s2 : FlowerPage.State) (f g : ℕ) :
    (FoodPage.onFile s (some f)).view = resetView ∧
    (FoodPage.onFile s (some f)).resp = none ∧
    (FoodPage.onFile s (some f)).elapsedMs = none ∧
    (FlowerPage.onFile s2 (some g)).inView = resetView ∧
    (FlowerPage.onFile s2 (some g)).outView = resetView ∧
    (FlowerPage.onFile s2 (some g)).resp = none ∧
    (FlowerPage.onFile s2 (some g)).elapsed = "–" ∧
    (FlowerPage.onFile s2 (some g)).error = none := by
  refine ⟨?_, ?_, ?_, ?_, ?_, ?_, ?_, ?_⟩ <;>
    simp [FoodPage.onFile, FlowerPage.onFile]

/-- C7: when the network request inside `analyze` fails, the failure is
caught inside `analyze`: the Food pages silently store placeholder demo
data, while FlowerDetection stores an inline error message and no
response; in both cases the processing flag ends cleared and the elapsed
time is recorded, and `analyze` (a total function here) propagates no
exception. -/
theorem analyze_failure_handling (s : FoodPage.State) (f : ℕ) (t : ℕ)
    (hf : s.file = some f)
    (s2 : FlowerPage.State) (g : ℕ) (t2 : ℕ) (msg : String)
    (hg : s2.file = some g) :
    (FoodPage.analyze s .reject t).resp = some (FoodPage.catchPlaceholder s) ∧
    (FoodPage.analyze s .reject t).processing = false ∧
    (FoodPage.analyze s .reject t).elapsedMs = some t ∧
    (FlowerPage.analyze s2 (.reject msg) t2).error = some msg ∧
    (FlowerPage.analyze s2 (.reject msg) t2).resp = none ∧
    (FlowerPage.analyze s2 (.reject msg) t2).processing = false ∧
    (FlowerPage.analyze s2 (.reject msg) t2).elapsed = toString t2 ++ " ms" := by
  refine ⟨?_, ?_, ?_, ?_, ?_, ?_, ?_⟩ <;>
    simp [FoodPage.analyze, FlowerPage.analyze, FoodPage.catchPlaceholder, hf, hg]

/-- Witness for C7 at concrete page states with a selected file. -/
theorem analyze_failure_handling_witness :
    (FoodPage.analyze ⟨some 1, some 1, some ⟨100, 100⟩, resetView, false, none, none⟩
        .reject 25).resp
      = some (FoodPage.catchPlaceholder
          ⟨some 1, some 1, some ⟨100, 100⟩, resetView, false, none, none⟩) ∧
    (FoodPage.analyze ⟨some 1, some 1, some ⟨100, 100⟩, resetView, false, none, none⟩
        .reject 25).processing = false ∧
    (FoodPage.analyze ⟨some 1, some 1, some ⟨100, 100⟩, resetView, false, none, none⟩
        .reject 25).elapsedMs = some 25 ∧
    (FlowerPage.analyze
        ⟨some 2, some 2, some ⟨64, 48⟩, resetView, resetView, false, none, none, "–"⟩
        (.reject "Failed to fetch") 40).error = some "Failed to fetch" ∧
    (FlowerPage.analyze
        ⟨some 2, some 2, some ⟨64, 48⟩, resetView, resetView, false, none, none, "–"⟩
        (.reject "Failed to fetch") 40).resp = none ∧
    (FlowerPage.analyze
        ⟨some 2, some 2, some ⟨64, 48⟩, resetView, resetView, false, none, none, "–"⟩
        (.reject "Failed to fetch") 40).processing = false ∧
    (FlowerPage.analyze
        ⟨some 2, some 2, some ⟨64, 48⟩, resetView, resetView, false, none, none, "–"⟩
        (.reject "Failed to fetch") 40).elapsed = toString 40 ++ " ms" :=
  analyze_failure_handling
    ⟨some 1, some 1, some ⟨100, 100⟩, resetView, false, none, none⟩ 1 25 rfl
    ⟨some 2, some 2, some ⟨64, 48⟩, resetView, resetView, false, none, none, "–"⟩
    2 40 "Failed to fetch" rfl

/-- C9: with no file selected, `analyze` returns immediately and leaves the
whole component state unchanged on both page variants — no processing
flag, no response, no error, no elapsed-time update, whatever the would-be
fetch outcome. -/
theorem analyze_no_file_frame (s : FoodPage.State)
    (outcome : FoodPage.FetchOutcome) (t : ℕ) (hf : s.file = none)
    (s2 : FlowerPage.State) (o2 : FlowerPage.FetchOutcome) (t2 : ℕ)
    (hg : s2.file = none) :
    FoodPage.analyze s outcome t = s ∧ FlowerPage.analyze s2 o2 t2 = s2 := by
  constructor <;> simp [FoodPage.analyze, FlowerPage.analyze, hf, hg]

/-- Witness for C9 at concrete file-less states. -/
theorem analyze_no_file_frame_witness :
    FoodPage.analyze ⟨none, none, none, resetView, false, none, none⟩ .reject 10
      = ⟨none, none, none, resetView, false, none, none⟩ ∧
    FlowerPage.analyze ⟨none, none, none, resetView, resetView, false, none, none, "–"⟩
        (.reject "x") 10
      = ⟨none, none, none, resetView, resetView, false, none, none, "–"⟩ :=
  analyze_no_file_frame ⟨none, none, none, resetView, false, none, none⟩ .reject 10 rfl
    ⟨none, none, none, resetView, resetView, false, none, none, "–"⟩ (.reject "x") 10 rfl

/-- C10: on the Food Classification pages, every completed `analyze` (file
selected) stores a response with a non-empty classes list; whenever the
parsed reply is missing/malformed (`resolve none`) or has an empty
`classes` array (`resolve (some d)` with `d.classes = []`) — even on an
HTTP-success response — it is replaced by the fixed placeholder list, so a
genuine empty classification result is never displayed. -/
theorem analyze_classes_nonempty (s : FoodPage.State) (f : ℕ) (hf : s.file = some f)
    (outcome : FoodPage.FetchOutcome) (t : ℕ) :
    (∃ r, (FoodPage.analyze s outcome t).resp = some r ∧ r.classes ≠ []) ∧
    (outcome = .resolve none →
      (FoodPage.analyze s outcome t).resp = some (FoodPage.okPlaceholder s)) ∧
    (∀ d, outcome = .resolve (some d) → d.classes = [] →
      (FoodPage.analyze s outcome t).resp = some (FoodPage.okPlaceholder s)) := by
  refine ⟨?_, ?_, ?_⟩
  · cases outcome with
    | reject =>
      refine ⟨FoodPage.catchPlaceholder s, ?_, ?_⟩
      · simp [FoodPage.analyze, FoodPage.catchPlaceholder, hf]
      · simp [FoodPage.catchPlaceholder]
    | resolve data =>
      cases data with
      | none =>
        refine ⟨FoodPage.okPlaceholder s, ?_, ?_⟩
        · simp [FoodPage.analyze, FoodPage.okPlaceholder, hf]
        · simp [FoodPage.okPlaceholder]
      | some d =>
        by_cases hc : d.classes.isEmpty
        · refine ⟨FoodPage.okPlaceholder s, ?_, ?_⟩
          · simp [FoodPage.analyze, FoodPage.okPlaceholder, hf, hc]
          · simp [FoodPage.okPlaceholder]
        · refine ⟨d, by simp [FoodPage.analyze, hf, hc], ?_⟩
          simpa [List.isEmpty_iff] using hc
  · intro ho
    subst ho
    simp [FoodPage.analyze, FoodPage.okPlaceholder, hf]
  · intro d ho hc
    subst ho
    simp [FoodPage.analyze, FoodPage.okPlaceholder, hf, hc]

/-- Witness for C10 at a concrete state and an HTTP-success reply carrying
an empty classes array. -/
theorem analyze_classes_nonempty_witness :
    (∃ r, (FoodPage.analyze ⟨some 1, some 1, none, resetView, false, none, none⟩
        (.resolve (some ⟨⟨10, 10⟩, []⟩)) 7).resp = some r ∧ r.classes ≠ []) ∧
    ((.resolve (some ⟨⟨10, 10⟩, []⟩) : FoodPage.FetchOutcome) = .resolve none →
      (FoodPage.analyze ⟨some 1, some 1, none, resetView, false, none, none⟩
        (.resolve (some ⟨⟨10, 10⟩, []⟩)) 7).resp
        = some (FoodPage.okPlaceholder ⟨some 1, some 1, none, resetView, false, none, none⟩)) ∧
    (∀ d, (.resolve (some ⟨⟨10, 10⟩, []⟩) : FoodPage.FetchOutcome) = .resolve (some d) →
      d.classes = [] →
      (FoodPage.analyze ⟨some 1, some 1, none, resetView, false, none, none⟩
        (.resolve (some ⟨⟨10, 10⟩, []⟩)) 7).resp
        = some (FoodPage.okPlaceholder ⟨some 1, some 1, none, resetView, false, none, none⟩)) :=
  analyze_classes_nonempty ⟨some 1, some 1, none, resetView, false, none, none⟩ 1 rfl
    (.resolve (some ⟨⟨10, 10⟩, []⟩)) 7

namespace ChatNew

/-- Exponent of the unit in the last place of the binary64 value nearest
`q`: binade exponent minus 52, floored at the subnormal ulp exponent
-1074.  (Values of magnitude at or above 2^1024 overflow to infinity in
binary64; none of the quantities handled here comes anywhere near that.) -/
def ulpExp (q : ℚ) : ℤ := max (-1074) (Int.log 2 |q| - 52)

/-- Round to the nearest integer, ties to even. -/
def rne (x : ℚ) : ℤ :=
  let f := ⌊x⌋
  let r := x - f
  if r < 1 / 2 then f
  else if 1 / 2 < r then f + 1
  else if f % 2 = 0 then f else f + 1

/-- Round an exact rational to the nearest IEEE-754 binary64 value
(round-to-nearest, ties-to-even): the nearest multiple of the ulp of the
result's binade. -/
def roundF64 (q : ℚ) : ℚ :=
  if q = 0 then 0
  else (rne (q / 2 ^ ulpExp q) : ℚ) * 2 ^ ulpExp q

/-- JavaScript `a + b` on numbers: binary64 addition, i.e. the exact sum
correctly rounded. -/
def fadd (a b : ℚ) : ℚ := roundF64 (a + b)

/-- The pan update `setView(v => ({ ...v, dx: v.dx + dx, dy: v.dy + dy }))`
with `+` modelled as binary64 addition (`panBy` is the same update under
exact addition). -/
def panByF (v : ViewportState) (deltaX deltaY : ℚ) : ViewportState :=
  { v with dx := fadd v.dx deltaX, dy := fadd v.dy deltaY }

theorem int_log_eq_of {r : ℚ} {k : ℤ} (hr : 0 < r)
    (h1 : (2 : ℚ) ^ k ≤ r) (h2 : r < (2 : ℚ) ^ (k + 1)) : Int.log 2 r = k := by
  have hA : (2 : ℚ) ^ Int.log 2 r ≤ r := by
    have := Int.zpow_log_le_self (b := 2) (R := ℚ) (by norm_num) hr
    simpa using this
  have hB : r < (2 : ℚ) ^ (Int.log 2 r + 1) := by
    have := Int.lt_zpow_succ_log_self (b := 2) (R := ℚ) (by norm_num) r
    simpa using this
  have h3 : Int.log 2 r < k + 1 :=
    (zpow_lt_zpow_iff_right₀ (by norm_num : (1 : ℚ) < 2)).1 (lt_of_le_of_lt hA h2)
  have h4 : k < Int.log 2 r + 1 :=
    (zpow_lt_zpow_iff_right₀ (by norm_num : (1 : ℚ) < 2)).1 (lt_of_le_of_lt h1 hB)
  omega

theorem roundF64_eval (q : ℚ) (k m : ℤ) (hq : q ≠ 0) (hk : Int.log 2 |q| = k)
    (hk2 : -1022 ≤ k) (hm : rne (q / 2 ^ (k - 52)) = m) :
    roundF64 q = m * 2 ^ (k - 52) := by
  unfold roundF64 ulpExp
  rw [if_neg hq, hk, max_eq_right (by omega), hm]

theorem rne_intCast (m : ℤ) : rne (m : ℚ) = m := by
  unfold rne
  rw [Int.floor_intCast]
  norm_num

theorem roundF64_intCast (n : ℤ) (h : |n| < 2 ^ 53) : roundF64 (n : ℚ) = n := by
  rcases eq_or_ne n 0 with rfl | hn
  · simp [roundF64]
  · have habs : |(n : ℚ)| = ((n.natAbs : ℕ) : ℚ) := by
      rw [← Int.cast_abs, Int.abs_eq_natAbs, Int.cast_natCast]
    have haZ : (n.natAbs : ℤ) = |n| := (Int.abs_eq_natAbs n).symm
    have haNat : n.natAbs < 2 ^ 53 := by
      have : (n.natAbs : ℤ) < 2 ^ 53 := by rw [haZ]; exact_mod_cast h
      exact_mod_cast this
    have ha0 : n.natAbs ≠ 0 := Int.natAbs_ne_zero.mpr hn
    have hlog : Nat.log 2 n.natAbs < 53 :=
      (Nat.lt_pow_iff_log_lt (by norm_num) ha0).1 haNat
    have hk : Int.log 2 |(n : ℚ)| = (Nat.log 2 n.natAbs : ℤ) := by
      rw [habs, Int.log_natCast]
    set kN : ℕ := Nat.log 2 n.natAbs with hkN
    have hkle : kN ≤ 52 := by omega
    have hulp : ulpExp (n : ℚ) = (kN : ℤ) - 52 := by
      unfold ulpExp
      rw [hk, max_eq_right (by omega)]
    set m : ℕ := 52 - kN with hmdef
    have hme : (52 : ℤ) - kN = (m : ℤ) := by omega
    have hx : (n : ℚ) / 2 ^ ((kN : ℤ) - 52) = ((n * 2 ^ m : ℤ) : ℚ) := by
      rw [div_eq_mul_inv, ← zpow_neg, neg_sub, hme, zpow_natCast]
      push_cast
      ring
    unfold roundF64
    rw [if_neg (by exact_mod_cast hn), hulp, hx, rne_intCast]
    push_cast
    rw [mul_assoc, ← zpow_natCast (2 : ℚ) m, ← zpow_add₀ (by norm_num : (2 : ℚ) ≠ 0)]
    have : (m : ℤ) + ((kN : ℤ) - 52) = 0 := by omega
    rw [this, zpow_zero, mul_one]

theorem fadd_intCast (a b : ℤ) (h : |a + b| < 2 ^ 53) :
    fadd (a : ℚ) (b : ℚ) = ((a + b : ℤ) : ℚ) := by
  unfold fadd
  rw [← Int.cast_add]
  exact roundF64_intCast _ h

theorem fadd_int_roundtrip (x a : ℤ) (h1 : |x| < 2 ^ 53) (h2 : |x + a| < 2 ^ 53) :
    fadd (fadd (x : ℚ) (a : ℚ)) (-(a : ℚ)) = (x : ℚ) := by
  rw [fadd_intCast x a h2]
  have : (-(a : ℚ)) = ((-a : ℤ) : ℚ) := by push_cast; ring
  rw [this, fadd_intCast (x + a) (-a) (by simpa using h1)]
  push_cast
  ring

theorem roundF64_tenth : roundF64 (1 / 10) = 3602879701896397 / 2 ^ 55 := by
  have hk : Int.log 2 |(1 / 10 : ℚ)| = -4 := by
    rw [abs_of_pos (by norm_num)]
    exact int_log_eq_of (by norm_num) (by norm_num) (by norm_num)
  have hm : rne ((1 / 10 : ℚ) / 2 ^ ((-4 : ℤ) - 52)) = 7205759403792794 := by
    have hx : (1 / 10 : ℚ) / 2 ^ ((-4 : ℤ) - 52) = 36028797018963968 / 5 := by
      norm_num
    rw [hx]
    unfold rne
    have hf : ⌊(36028797018963968 / 5 : ℚ)⌋ = 7205759403792793 := by
      rw [Int.floor_eq_iff]
      constructor <;> norm_num
    rw [hf]
    norm_num
  have := roundF64_eval (1 / 10) (-4) 7205759403792794 (by norm_num) hk (by norm_num) hm
  rw [this]
  norm_num

theorem roundF64_fifth : roundF64 (1 / 5) = 3602879701896397 / 2 ^ 54 := by
  have hk : Int.log 2 |(1 / 5 : ℚ)| = -3 := by
    rw [abs_of_pos (by norm_num)]
    exact int_log_eq_of (by norm_num) (by norm_num) (by norm_num)
  have hm : rne ((1 / 5 : ℚ) / 2 ^ ((-3 : ℤ) - 52)) = 7205759403792794 := by
    have hx : (1 / 5 : ℚ) / 2 ^ ((-3 : ℤ) - 52) = 36028797018963968 / 5 := by
      norm_num
    rw [hx]
    unfold rne
    have hf : ⌊(36028797018963968 / 5 : ℚ)⌋ = 7205759403792793 := by
      rw [Int.floor_eq_iff]
      constructor <;> norm_num
    rw [hf]
    norm_num
  have := roundF64_eval (1 / 5) (-3) 7205759403792794 (by norm_num) hk (by norm_num) hm
  rw [this]
  norm_num

theorem fadd_tenth_fifth :
    fadd (3602879701896397 / 2 ^ 55) (3602879701896397 / 2 ^ 54)
      = 1351079888211149 / 2 ^ 52 := by
  unfold fadd
  have hsum : (3602879701896397 / 2 ^ 55 + 3602879701896397 / 2 ^ 54 : ℚ)
      = 10808639105689191 / 2 ^ 55 := by norm_num
  rw [hsum]
  have hk : Int.log 2 |(10808639105689191 / 2 ^ 55 : ℚ)| = -2 := by
    rw [abs_of_pos (by norm_num)]
    exact int_log_eq_of (by norm_num) (by norm_num) (by norm_num)
  have hm : rne ((10808639105689191 / 2 ^ 55 : ℚ) / 2 ^ ((-2 : ℤ) - 52))
      = 5404319552844596 := by
    have hx : (10808639105689191 / 2 ^ 55 : ℚ) / 2 ^ ((-2 : ℤ) - 52)
        = 10808639105689191 / 2 := by norm_num
    rw [hx]
    unfold rne
    have hf : ⌊(10808639105689191 / 2 : ℚ)⌋ = 5404319552844595 := by
      rw [Int.floor_eq_iff]
      constructor <;> norm_num
    rw [hf]
    norm_num
  have := roundF64_eval (10808639105689191 / 2 ^ 55) (-2) 5404319552844596
    (by norm_num) hk (by norm_num) hm
  rw [this]
  norm_num

theorem fadd_sum_neg_fifth :
    fadd (1351079888211149 / 2 ^ 52) (-(3602879701896397 / 2 ^ 54))
      = 1801439850948199 / 2 ^ 54 := by
  unfold fadd
  have hsum : (1351079888211149 / 2 ^ 52 + -(3602879701896397 / 2 ^ 54) : ℚ)
      = 1801439850948199 / 2 ^ 54 := by norm_num
  rw [hsum]
  have hk : Int.log 2 |(1801439850948199 / 2 ^ 54 : ℚ)| = -4 := by
    rw [abs_of_pos (by norm_num)]
    exact int_log_eq_of (by norm_num) (by norm_num) (by norm_num)
  have hm : rne ((1801439850948199 / 2 ^ 54 : ℚ) / 2 ^ ((-4 : ℤ) - 52))
      = 7205759403792796 := by
    have hx : (1801439850948199 / 2 ^ 54 : ℚ) / 2 ^ ((-4 : ℤ) - 52)
        = ((7205759403792796 : ℤ) : ℚ) := by norm_num
    rw [hx, rne_intCast]
  have := roundF64_eval (1801439850948199 / 2 ^ 54) (-4) 7205759403792796
    (by norm_num) hk (by norm_num) hm
  rw [this]
  norm_num

end ChatNew

/-- C8 counterexample: the program's pan additions are IEEE-754 binary64,
where `(0.1 + 0.2) - 0.2` rounds to `0.10000000000000003`.  Starting from
the state whose offsets are the double nearest 0.1 (= 3602879701896397/2^55)
and panning by the double nearest 0.2 and back, the final `dx` is
1801439850948199/2^54 — one ulp above the original — so the offsets are NOT
restored bit-for-bit as the claim asserts. -/
theorem pan_inverse_float_counterexample :
    (panByF (panByF ⟨1, roundF64 (1 / 10), roundF64 (1 / 10)⟩
        (roundF64 (1 / 5)) (roundF64 (1 / 5)))
      (-roundF64 (1 / 5)) (-roundF64 (1 / 5))).dx
      = 1801439850948199 / 2 ^ 54 ∧
    roundF64 (1 / 10) = 3602879701896397 / 2 ^ 55 ∧
    (1801439850948199 / 2 ^ 54 : ℚ) ≠ 3602879701896397 / 2 ^ 55 := by
  refine ⟨?_, roundF64_tenth, by norm_num⟩
  show fadd (fadd (roundF64 (1 / 10)) (roundF64 (1 / 5))) (-roundF64 (1 / 5))
      = 1801439850948199 / 2 ^ 54
  rw [roundF64_tenth, roundF64_fifth, fadd_tenth_fifth, fadd_sum_neg_fifth]

/-- C8 amended: panning by `(deltaX, deltaY)` and then by
`(-deltaX, -deltaY)` leaves the scale unchanged throughout, bit-for-bit —
the pan update never writes the scale, under exact and under IEEE binary64
arithmetic alike; the offsets are restored exactly under exact addition,
and under the program's binary64 addition they are restored bit-for-bit
whenever offset and delta are integers of magnitude below 2^53 (ordinary
integer-pixel panning) — but not in general (see the counterexample). -/
theorem pan_inverse_amended (v : ViewportState) (deltaX deltaY : ℚ) :
    panBy (panBy v deltaX deltaY) (-deltaX) (-deltaY) = v ∧
    (panBy v deltaX deltaY).scale = v.scale ∧
    (panByF v deltaX deltaY).scale = v.scale ∧
    (panByF (panByF v deltaX deltaY) (-deltaX) (-deltaY)).scale = v.scale ∧
    (∀ x a : ℤ, |x| < 2 ^ 53 → |x + a| < 2 ^ 53 →
      fadd (fadd (x : ℚ) (a : ℚ)) (-(a : ℚ)) = (x : ℚ)) := by
  refine ⟨?_, rfl, rfl, rfl, fun x a h1 h2 => fadd_int_roundtrip x a h1 h2⟩
  unfold panBy
  cases v with
  | mk s dx dy => simp

/-- Witness for the amended C8 at the initial state with integer deltas. -/
theorem pan_inverse_amended_witness :
    panBy (panBy resetView 3 4) (-3) (-4) = resetView ∧
    (panByF resetView 3 4).scale = resetView.scale ∧
    fadd (fadd ((7 : ℤ) : ℚ) ((5 : ℤ) : ℚ)) (-((5 : ℤ) : ℚ)) = ((7 : ℤ) : ℚ) := by
  refine ⟨(pan_inverse_amended resetView 3 4).1,
    (pan_inverse_amended resetView 3 4).2.2.1, ?_⟩
  exact (pan_inverse_amended resetView 3 4).2.2.2.2 7 5 (by norm_num) (by norm_num)
